import Mathlib

/-!
Shallow embedding of the melody-preview generator of `src/main.py` and a
verification of its specified properties.

Python's real-valued arithmetic is modelled exactly over `ℚ` (the spec works
with exact decimal values throughout, "floating-point rounding aside").
Machine-level float rounding is outside the model.
-/

namespace MelodyPreview

/-- Python `int()` applied to a real-valued quantity: truncation toward zero. -/
def pyInt (q : ℚ) : ℤ := if 0 ≤ q then ⌊q⌋ else ⌈q⌉

/-- Round half to even (banker's rounding) to the nearest integer, as Python
`round` does on a real value. -/
def roundHalfEven (q : ℚ) : ℤ :=
  let f := ⌊q⌋
  let r := q - f
  if r < 1/2 then f
  else if 1/2 < r then f + 1
  else if f % 2 = 0 then f else f + 1

/-- Python `round(x, 3)`: round to 3 decimal places, ties to even. -/
def round3 (q : ℚ) : ℚ := (roundHalfEven (q * 1000) : ℚ) / 1000

/-- Characters treated as line boundaries by Python `str.splitlines`. -/
def isLineBreak (c : Char) : Bool :=
  c = '\n' || c = '\r' || c = '\x0b' || c = '\x0c' ||
  c = '\x1c' || c = '\x1d' || c = '\x1e' || c = '\x85' ||
  c = '\u2028' || c = '\u2029'

/-- Worker for `splitlines`: `acc` holds the current line, reversed. -/
def splitlinesAux : List Char → List Char → List String
  | [], acc => if acc.isEmpty then [] else [String.mk acc.reverse]
  | '\r' :: '\n' :: rest, acc => String.mk acc.reverse :: splitlinesAux rest []
  | c :: rest, acc =>
    if isLineBreak c then String.mk acc.reverse :: splitlinesAux rest []
    else splitlinesAux rest (c :: acc)

/-- Python `str.splitlines`. -/
def splitlines (s : String) : List String := splitlinesAux s.data []

/-- Characters for which Python `str.isspace` holds (stripped by `str.strip`). -/
def isPySpace (c : Char) : Bool :=
  c = ' ' || c = '\t' || c = '\n' || c = '\r' || c = '\x0b' || c = '\x0c' ||
  c = '\x1c' || c = '\x1d' || c = '\x1e' || c = '\x1f' || c = '\x85' ||
  c = '\xa0' || c = '\u1680' || ('\u2000' ≤ c && c ≤ '\u200a') ||
  c = '\u2028' || c = '\u2029' || c = '\u202f' || c = '\u205f' || c = '\u3000'

/-- Python `str.strip`. -/
def pyStrip (s : String) : String :=
  String.mk (((s.data.dropWhile (fun c => isPySpace c)).reverse.dropWhile
    (fun c => isPySpace c)).reverse)

/-- Model of `class TimestampItem(BaseModel)` of `main.py`. -/
structure TimestampItem where
  lineText : String
  start_ms : ℤ
  end_ms : ℤ
deriving DecidableEq

/-- Model of one element of the `notes` list built by `generate_melody_preview`
(a dict with keys `midi`, `time`, `duration`). -/
structure NoteEvent where
  midi : ℤ
  time : ℚ
  duration : ℚ
deriving DecidableEq

/-- Model of `class MelodyPreviewRequest(BaseModel)` of `main.py`, after pydantic
validation: an absent optional field carries its pydantic default, and an
explicit JSON `null` is `none`. -/
structure MelodyPreviewRequest where
  lyrics : String
  tempo : Option ℤ := some 96
  key : Option String := some "C"
  style : Option String := some "pop"
deriving DecidableEq

/-- Model of the `midiJson` dict assembled at line 112 of `main.py`. -/
structure MidiJson where
  notes : List NoteEvent
  tempo : Option ℤ
  key : Option String
  style : Option String
deriving DecidableEq

/-- Model of `class MelodyPreviewResponse(BaseModel)` of `main.py`. -/
structure MelodyPreviewResponse where
  midiJson : MidiJson
  guideAudioUrl : Option String := none
  timestamps : List TimestampItem
deriving DecidableEq

/-- Python truthiness-based `x or default` on an optional int: `None` and `0`
are falsy, every other int is truthy. -/
def pyOrInt : Option ℤ → ℤ → ℤ
  | none, d => d
  | some v, d => if v = 0 then d else v

/-- Model of `max(60, min(req.tempo or 96, 180))` of line 91 of `main.py`. -/
def effectiveTempo (req : MelodyPreviewRequest) : ℤ :=
  max 60 (min (pyOrInt req.tempo 96) 180)

/-- Model of `beat_sec = 60.0 / max(60, min(req.tempo or 96, 180))` (line 91). -/
def beatSec (req : MelodyPreviewRequest) : ℚ :=
  (60.0 : ℚ) / (effectiveTempo req : ℚ)

/-- Model of `[l.strip() for l in (req.lyrics or "").splitlines() if l.strip()]`
(line 88): the non-blank trimmed lines, in order.  (`lyrics or ""` is the
identity here: an empty `lyrics` yields no lines either way.) -/
def rawLines (lyrics : String) : List String :=
  ((splitlines lyrics).map pyStrip).filter (fun l => l ≠ "")

/-- Model of lines 88-90 of `main.py`: the non-blank trimmed lines, replaced by
the fixed two-line fallback when there are none. -/
def effectiveLines (lyrics : String) : List String :=
  let lines := rawLines lyrics
  if lines = [] then ["la la la", "dum dum"] else lines

/-- Model of one element of the `notes` list (lines 106-110 of `main.py`): the
note for line index `i` and step index `s`, with `t` the running cursor at the
start of the line.  There `step = 0.5` and `midi_base = 60`. -/
def noteForStep (i s : ℕ) (t beat_sec : ℚ) : NoteEvent :=
  { midi := 60 + ((i % 5 : ℕ) : ℤ) * 2 + ((s % 3 : ℕ) : ℤ)
    time := round3 (t + (s : ℚ) * (0.5 : ℚ) * beat_sec)
    duration := round3 ((0.5 : ℚ) * beat_sec * (0.9 : ℚ)) }

/-- Model of the loop of lines 97-111 of `main.py`: walks the lines with line
index `i` and running cursor `t` (seconds), emitting one `TimestampItem` per
line and `int(dur_beats / step) = 4` notes per line, where `dur_beats = 2` and
`step = 0.5`.  Returns the `timestamps` and `notes` accumulators. -/
def processLines (beat_sec : ℚ) : List String → ℕ → ℚ →
    List TimestampItem × List NoteEvent
  | [], _, _ => ([], [])
  | line :: rest, i, t =>
    let start := pyInt (t * 1000)
    let dur_beats : ℚ := 2
    let stop := pyInt ((t + dur_beats * beat_sec) * 1000)
    let steps := (pyInt (dur_beats / (0.5 : ℚ))).toNat
    let lineNotes := (List.range steps).map (fun s => noteForStep i s t beat_sec)
    let pr := processLines beat_sec rest (i + 1) (t + dur_beats * beat_sec)
    (⟨line, start, stop⟩ :: pr.1, lineNotes ++ pr.2)

/-- Model of the fixed placeholder data URI of line 116 of `main.py`. -/
def mockGuideAudioUrl : String :=
  "data:audio/wav;base64,UklGRiQAAABXQVZFZm10IBAAAAABAAEAESsAACJWAAACABYAAAAAAACAgICAgP//"

/-- Model of `generate_melody_preview` of `main.py` (lines 86-119).  `mockMode`
is the process-level `MOCK_MODE` flag, passed explicitly. -/
def generate_melody_preview (req : MelodyPreviewRequest) (mockMode : Bool) :
    MelodyPreviewResponse :=
  let lines := effectiveLines req.lyrics
  let beat_sec := beatSec req
  let pr := processLines beat_sec lines 0 0
  { midiJson := ⟨pr.2, req.tempo, req.key, req.style⟩
    guideAudioUrl := if mockMode then some mockGuideAudioUrl else none
    timestamps := pr.1 }

/-! ### Basic facts about the embedding -/

lemma generate_timestamps (req : MelodyPreviewRequest) (mock : Bool) :
    (generate_melody_preview req mock).timestamps =
      (processLines (beatSec req) (effectiveLines req.lyrics) 0 0).1 := rfl

lemma generate_notes (req : MelodyPreviewRequest) (mock : Bool) :
    (generate_melody_preview req mock).midiJson.notes =
      (processLines (beatSec req) (effectiveLines req.lyrics) 0 0).2 := rfl

lemma steps_eq_four : (pyInt ((2 : ℚ) / (0.5 : ℚ))).toNat = 4 := by
  have h : pyInt ((2 : ℚ) / (0.5 : ℚ)) = 4 := by norm_num [pyInt]
  rw [h]
  rfl

lemma pyInt_eq_floor {q : ℚ} (h : 0 ≤ q) : pyInt q = ⌊q⌋ := by
  rw [pyInt, if_pos h]

lemma pyInt_nonneg {q : ℚ} (h : 0 ≤ q) : 0 ≤ pyInt q := by
  rw [pyInt_eq_floor h]
  exact Int.floor_nonneg.mpr h

lemma pyInt_mono {a b : ℚ} (ha : 0 ≤ a) (hab : a ≤ b) : pyInt a ≤ pyInt b := by
  rw [pyInt_eq_floor ha, pyInt_eq_floor (ha.trans hab)]
  exact Int.floor_mono hab

lemma effectiveTempo_lb (req : MelodyPreviewRequest) : 60 ≤ effectiveTempo req :=
  le_max_left _ _

lemma pyOrInt_some_ne_zero {v : ℤ} (h : v ≠ 0) (d : ℤ) :
    pyOrInt (some v) d = v := by
  simp [pyOrInt, h]

lemma beatSec_pos (req : MelodyPreviewRequest) : 0 < beatSec req := by
  have h := effectiveTempo_lb req
  have h0 : (0 : ℚ) < (effectiveTempo req : ℚ) := by exact_mod_cast by omega
  exact div_pos (by norm_num) h0

lemma effectiveLines_ne_nil (lyrics : String) : effectiveLines lyrics ≠ [] := by
  rw [effectiveLines]
  split
  · simp
  · assumption

/-! ### Structure of the processing loop -/

lemma processLines_fst_length (bs : ℚ) :
    ∀ (lines : List String) (i : ℕ) (t : ℚ),
      (processLines bs lines i t).1.length = lines.length
  | [], _, _ => by simp [processLines]
  | line :: rest, i, t => by
    simp only [processLines, List.length_cons]
    rw [processLines_fst_length bs rest (i + 1) (t + 2 * bs)]

lemma processLines_snd_length (bs : ℚ) :
    ∀ (lines : List String) (i : ℕ) (t : ℚ),
      (processLines bs lines i t).2.length = 4 * lines.length
  | [], _, _ => by simp [processLines]
  | line :: rest, i, t => by
    simp only [processLines, steps_eq_four, List.length_append, List.length_map,
      List.length_range, List.length_cons]
    rw [processLines_snd_length bs rest (i + 1) (t + 2 * bs)]
    omega

lemma processLines_fst_map (bs : ℚ) :
    ∀ (lines : List String) (i : ℕ) (t : ℚ),
      (processLines bs lines i t).1.map TimestampItem.lineText = lines
  | [], _, _ => by simp [processLines]
  | line :: rest, i, t => by
    simp only [processLines, List.map_cons, List.cons.injEq]
    exact ⟨trivial, processLines_fst_map bs rest (i + 1) (t + 2 * bs)⟩

lemma processLines_fst_head (bs : ℚ) (lines : List String) (i : ℕ) (t : ℚ) :
    (processLines bs lines i t).1.head? =
      lines.head?.map (fun line =>
        (⟨line, pyInt (t * 1000), pyInt ((t + 2 * bs) * 1000)⟩ : TimestampItem)) := by
  cases lines <;> simp [processLines]

lemma processLines_chain (bs : ℚ) :
    ∀ (lines : List String) (i : ℕ) (t : ℚ),
      List.Chain' (fun a b => a.end_ms = b.start_ms) (processLines bs lines i t).1
  | [], _, _ => by simp [processLines]
  | line :: rest, i, t => by
    simp only [processLines]
    rw [List.chain'_cons']
    refine ⟨?_, processLines_chain bs rest (i + 1) (t + 2 * bs)⟩
    intro y hy
    rw [processLines_fst_head bs rest (i + 1) (t + 2 * bs)] at hy
    cases rest with
    | nil => simp at hy
    | cons a as =>
      simp only [List.head?_cons, Option.map_some', Option.mem_def,
        Option.some.injEq] at hy
      rw [← hy]

lemma processLines_fst_bounds (bs : ℚ) (hbs : 0 ≤ bs) :
    ∀ (lines : List String) (i : ℕ) (t : ℚ), 0 ≤ t →
      ∀ e ∈ (processLines bs lines i t).1, 0 ≤ e.start_ms ∧ e.start_ms ≤ e.end_ms
  | [], _, _ => by simp [processLines]
  | line :: rest, i, t => by
    intro ht e he
    simp only [processLines, List.mem_cons] at he
    rcases he with rfl | he
    · refine ⟨pyInt_nonneg (by positivity), pyInt_mono (by positivity) ?_⟩
      have h : t ≤ t + 2 * bs := by linarith
      nlinarith
    · exact processLines_fst_bounds bs hbs rest (i + 1) (t + 2 * bs)
        (by linarith) e he

lemma processLines_midi_bounds (bs : ℚ) :
    ∀ (lines : List String) (i : ℕ) (t : ℚ),
      ∀ e ∈ (processLines bs lines i t).2, 60 ≤ e.midi ∧ e.midi ≤ 70
  | [], _, _ => by simp [processLines]
  | line :: rest, i, t => by
    intro e he
    simp only [processLines, steps_eq_four, List.mem_append, List.mem_map,
      List.mem_range] at he
    rcases he with ⟨s, _, rfl⟩ | he
    · dsimp only [noteForStep]
      constructor <;> omega
    · exact processLines_midi_bounds bs rest (i + 1) (t + 2 * bs) e he

lemma processLines_snd_get (bs : ℚ) :
    ∀ (lines : List String) (i : ℕ) (t : ℚ) (k s : ℕ),
      k < lines.length → s < 4 →
      (processLines bs lines i t).2[4 * k + s]? =
        some (noteForStep (i + k) s (t + 2 * bs * k) bs)
  | [], _, _, k, s => by
    intro hk _
    simp at hk
  | line :: rest, i, t, 0, s => by
    intro _ hs
    simp only [processLines, steps_eq_four, Nat.mul_zero, Nat.zero_add,
      Nat.add_zero, Nat.cast_zero, mul_zero, add_zero]
    rw [List.getElem?_append]
    simp [List.getElem?_map, List.getElem?_range, hs]
  | line :: rest, i, t, k+1, s => by
    intro hk hs
    have hk' : k < rest.length := by
      simp only [List.length_cons] at hk
      omega
    simp only [processLines, steps_eq_four]
    rw [List.getElem?_append_right (by simp; omega)]
    simp only [List.length_map, List.length_range]
    have h4 : 4 * (k + 1) + s - 4 = 4 * k + s := by omega
    rw [h4, processLines_snd_get bs rest (i + 1) (t + 2 * bs) k s hk' hs]
    have hi : i + 1 + k = i + (k + 1) := by omega
    have ht : t + 2 * bs + 2 * bs * (k : ℚ) = t + 2 * bs * ((k : ℚ) + 1) := by
      ring
    rw [hi, ht]
    push_cast
    rfl

/-! ### Concrete evaluations -/

/-- Request of the spec scenario: `lyrics="Hello\nWorld"`, `tempo=120`. -/
def reqHW : MelodyPreviewRequest := ⟨"Hello\nWorld", some 120, some "C", some "pop"⟩

/-- Request with a single lyric line and `tempo=120`. -/
def reqH120 : MelodyPreviewRequest := ⟨"Hello", some 120, some "C", some "pop"⟩

/-- Request with `tempo=0`. -/
def reqT0 : MelodyPreviewRequest := ⟨"Hello", some 0, some "C", some "pop"⟩

/-- Request with `tempo=60`. -/
def reqT60 : MelodyPreviewRequest := ⟨"Hello", some 60, some "C", some "pop"⟩

/-- Request with empty lyrics and all pydantic defaults. -/
def reqEmpty : MelodyPreviewRequest := { lyrics := "" }

lemma beatSec_reqHW : beatSec reqHW = 1/2 := by
  norm_num [beatSec, reqHW, effectiveTempo, pyOrInt]

lemma eval_reqHW_timestamps :
    (generate_melody_preview reqHW true).timestamps =
      [⟨"Hello", 0, 1000⟩, ⟨"World", 1000, 2000⟩] := by
  rw [generate_timestamps,
    show effectiveLines reqHW.lyrics = ["Hello", "World"] from by decide,
    beatSec_reqHW]
  simp only [processLines, noteForStep, pyInt]
  norm_num

lemma eval_reqHW_notes_head :
    (generate_melody_preview reqHW true).midiJson.notes.head? =
      some ⟨60, 0, 9/40⟩ := by
  rw [generate_notes,
    show effectiveLines reqHW.lyrics = ["Hello", "World"] from by decide,
    beatSec_reqHW]
  simp only [processLines, steps_eq_four,
    show List.range 4 = [0, 1, 2, 3] from by decide,
    List.map_cons, List.map_nil, List.append_nil, noteForStep]
  norm_num [pyInt, round3, roundHalfEven]

lemma beatSec_reqH120 : beatSec reqH120 = 1/2 := by
  norm_num [beatSec, reqH120, effectiveTempo, pyOrInt]

lemma eval_reqH120_notes :
    (generate_melody_preview reqH120 true).midiJson.notes =
      [⟨60, 0, 9/40⟩, ⟨61, 1/4, 9/40⟩, ⟨62, 1/2, 9/40⟩, ⟨60, 3/4, 9/40⟩] := by
  rw [generate_notes,
    show effectiveLines reqH120.lyrics = ["Hello"] from by decide,
    beatSec_reqH120]
  simp only [processLines, steps_eq_four,
    show List.range 4 = [0, 1, 2, 3] from by decide,
    List.map_cons, List.map_nil, List.append_nil, noteForStep]
  norm_num [pyInt, round3, roundHalfEven]

lemma eval_reqT0_timestamps :
    (generate_melody_preview reqT0 true).timestamps = [⟨"Hello", 0, 1250⟩] := by
  rw [generate_timestamps,
    show effectiveLines reqT0.lyrics = ["Hello"] from by decide,
    show beatSec reqT0 = 5/8 from by
      norm_num [beatSec, reqT0, effectiveTempo, pyOrInt]]
  simp only [processLines, noteForStep, pyInt]
  norm_num

lemma eval_reqT60_timestamps :
    (generate_melody_preview reqT60 true).timestamps = [⟨"Hello", 0, 2000⟩] := by
  rw [generate_timestamps,
    show effectiveLines reqT60.lyrics = ["Hello"] from by decide,
    show beatSec reqT60 = 1 from by
      norm_num [beatSec, reqT60, effectiveTempo, pyOrInt]]
  simp only [processLines, noteForStep, pyInt]
  norm_num

/-! ### Claims -/

/-- Claim C1: for every input, the returned timestamps list is contiguous and
non-overlapping — the end of each entry equals the start of the next — and each
entry has non-negative, ordered bounds, so the interleaved start/end values are
non-decreasing across the list. -/
theorem timestamps_contiguous_nonneg (req : MelodyPreviewRequest) (mock : Bool) :
    List.Chain' (fun a b => a.end_ms = b.start_ms)
      (generate_melody_preview req mock).timestamps ∧
    ∀ e ∈ (generate_melody_preview req mock).timestamps,
      0 ≤ e.start_ms ∧ e.start_ms ≤ e.end_ms := by
  rw [generate_timestamps]
  exact ⟨processLines_chain _ _ _ _,
    processLines_fst_bounds _ (beatSec_pos req).le _ _ _ le_rfl⟩

/-- Witness for C1 at the scenario request, instantiating the membership
hypothesis with the first timestamp entry. -/
theorem timestamps_contiguous_nonneg_witness :
    (⟨"Hello", 0, 1000⟩ : TimestampItem) ∈
      (generate_melody_preview reqHW true).timestamps ∧
    (0 : ℤ) ≤ (⟨"Hello", 0, 1000⟩ : TimestampItem).start_ms ∧
    (⟨"Hello", 0, 1000⟩ : TimestampItem).start_ms ≤
      (⟨"Hello", 0, 1000⟩ : TimestampItem).end_ms := by
  have hm : (⟨"Hello", 0, 1000⟩ : TimestampItem) ∈
      (generate_melody_preview reqHW true).timestamps := by
    rw [eval_reqHW_timestamps]
    simp
  exact ⟨hm, (timestamps_contiguous_nonneg reqHW true).2 _ hm⟩

/-- Claim C2: the note at flat position `4*k + s` (line index `k`, step index
`s < 4`) has `midi = 60 + (k % 5) * 2 + (s % 3)`,
`time = round(t_line_start + s * 0.5 * beat_sec, 3)` and
`duration = round(0.5 * beat_sec * 0.9, 3)`, where the running cursor at the
start of line `k` is `2 * k * beat_sec`. -/
theorem notes_flat_formula (req : MelodyPreviewRequest) (mock : Bool)
    (k s : ℕ) (hk : k < (effectiveLines req.lyrics).length) (hs : s < 4) :
    (generate_melody_preview req mock).midiJson.notes[4 * k + s]? =
      some { midi := 60 + ((k % 5 : ℕ) : ℤ) * 2 + ((s % 3 : ℕ) : ℤ)
             time := round3 (2 * (k : ℚ) * beatSec req +
               (s : ℚ) * (0.5 : ℚ) * beatSec req)
             duration := round3 ((0.5 : ℚ) * beatSec req * (0.9 : ℚ)) } := by
  rw [generate_notes, processLines_snd_get (beatSec req) _ 0 0 k s hk hs]
  have h1 : (0 : ℚ) + 2 * beatSec req * (k : ℚ) = 2 * (k : ℚ) * beatSec req := by
    ring
  simp only [noteForStep, Nat.zero_add, h1]

/-- Witness for C2 at the scenario request, line 1, step 2. -/
theorem notes_flat_formula_witness :
    1 < (effectiveLines reqHW.lyrics).length ∧ 2 < 4 ∧
    (generate_melody_preview reqHW true).midiJson.notes[4 * 1 + 2]? =
      some { midi := 60 + ((1 % 5 : ℕ) : ℤ) * 2 + ((2 % 3 : ℕ) : ℤ)
             time := round3 (2 * ((1 : ℕ) : ℚ) * beatSec reqHW +
               ((2 : ℕ) : ℚ) * (0.5 : ℚ) * beatSec reqHW)
             duration := round3 ((0.5 : ℚ) * beatSec reqHW * (0.9 : ℚ)) } :=
  ⟨by decide, by norm_num,
    notes_flat_formula reqHW true 1 2 (by decide) (by norm_num)⟩

/-- Counterexample to claim C3: for `tempo=0` the code does NOT use
`clamp(0, 60, 180) = 60`.  Python's `req.tempo or 96` treats `0` as falsy, so
the default 96 is used instead, and the timestamps differ from those of
`tempo=60` (end_ms 1250 vs 2000). -/
theorem tempo_zero_not_clamped :
    (generate_melody_preview reqT0 true).timestamps ≠
      (generate_melody_preview reqT60 true).timestamps := by
  rw [eval_reqT0_timestamps, eval_reqT60_timestamps]
  decide

/-- Amended claim C3: the tempo used for all timing math is
`clamp(t, 60, 180)` where `t` is the requested tempo when present and nonzero,
and the default 96 when the tempo is missing or zero (Python falsiness):
`beat_seconds = 60 / clamp(t, 60, 180)`, and replacing the requested tempo by
the clamped effective tempo leaves timestamps and notes unchanged. -/
theorem effective_tempo_clamp (req : MelodyPreviewRequest) (mock : Bool) :
    beatSec req = 60 / ((max 60 (min (pyOrInt req.tempo 96) 180) : ℤ) : ℚ) ∧
    (generate_melody_preview req mock).timestamps =
      (generate_melody_preview { req with tempo := some (effectiveTempo req) }
        mock).timestamps ∧
    (generate_melody_preview req mock).midiJson.notes =
      (generate_melody_preview { req with tempo := some (effectiveTempo req) }
        mock).midiJson.notes := by
  have h1 : (60 : ℤ) ≤ effectiveTempo req := effectiveTempo_lb req
  have h2 : effectiveTempo req ≤ 180 := by
    rw [effectiveTempo]
    omega
  have hE : effectiveTempo { req with tempo := some (effectiveTempo req) } =
      effectiveTempo req := by
    rw [show effectiveTempo { req with tempo := some (effectiveTempo req) } =
        max 60 (min (pyOrInt (some (effectiveTempo req)) 96) 180) from rfl,
      pyOrInt_some_ne_zero (by omega)]
    omega
  have hB : beatSec { req with tempo := some (effectiveTempo req) } =
      beatSec req := by
    rw [beatSec, beatSec, hE]
  refine ⟨?_, ?_, ?_⟩
  · rw [beatSec, effectiveTempo]
    norm_num
  · rw [generate_timestamps, generate_timestamps, hB]
  · rw [generate_notes, generate_notes, hB]

/-- Counterexample to claim C4: at the scenario input the first note's duration
is not 0.45. -/
theorem hello_world_duration_cex :
    (generate_melody_preview reqHW true).midiJson.notes.head? ≠
      some ⟨60, 0, (0.45 : ℚ)⟩ := by
  rw [eval_reqHW_notes_head]
  simp only [ne_eq, Option.some.injEq, NoteEvent.mk.injEq]
  norm_num

/-- Amended claim C4: for `lyrics="Hello\nWorld"`, `tempo=120`:
`beat_seconds = 0.5`; line 0 spans 0..1000 ms and line 1 spans 1000..2000 ms;
there are exactly 8 notes; the first note has `midi=60`, `time=0.0` and
`duration = round(0.5 * 0.5 * 0.9, 3) = 0.225` (not 0.45). -/
theorem hello_world_scenario :
    beatSec reqHW = (0.5 : ℚ) ∧
    (generate_melody_preview reqHW true).timestamps =
      [⟨"Hello", 0, 1000⟩, ⟨"World", 1000, 2000⟩] ∧
    (generate_melody_preview reqHW true).midiJson.notes.length = 8 ∧
    (generate_melody_preview reqHW true).midiJson.notes.head? =
      some ⟨60, 0, (0.225 : ℚ)⟩ := by
  refine ⟨by rw [beatSec_reqHW]; norm_num, eval_reqHW_timestamps, ?_, ?_⟩
  · rw [generate_notes, processLines_snd_length,
      show effectiveLines reqHW.lyrics = ["Hello", "World"] from by decide]
    rfl
  · rw [eval_reqHW_notes_head]
    norm_num

/-- Claim C5: the `tempo` echoed in `midiJson` is the raw requested value, not
the clamped effective tempo; a request built with only `lyrics` carries the
pydantic default `tempo = 96`. -/
theorem midiJson_tempo_echoes_raw (req : MelodyPreviewRequest) (mock : Bool) :
    (generate_melody_preview req mock).midiJson.tempo = req.tempo ∧
    ({ lyrics := req.lyrics } : MelodyPreviewRequest).tempo = some 96 :=
  ⟨rfl, rfl⟩

/-- Counterexample to claim C6: for empty lyrics the timestamps list has 2
entries (the fallback lines) while there are 0 non-blank trimmed lines. -/
theorem empty_lyrics_line_count_cex :
    ¬ (generate_melody_preview reqEmpty true).timestamps.length =
        (rawLines reqEmpty.lyrics).length := by
  rw [generate_timestamps, processLines_fst_length]
  decide

/-- Amended claim C6: for every input with at least one non-blank trimmed line,
the timestamps are exactly those lines in order (one entry per line, with
`lineText` the trimmed line); and for every input the flat notes list has
exactly 4 entries per timestamp entry. -/
theorem timestamps_match_lines (req : MelodyPreviewRequest) (mock : Bool) :
    (rawLines req.lyrics ≠ [] →
      (generate_melody_preview req mock).timestamps.map TimestampItem.lineText =
        rawLines req.lyrics) ∧
    (generate_melody_preview req mock).midiJson.notes.length =
      4 * (generate_melody_preview req mock).timestamps.length := by
  constructor
  · intro h
    rw [generate_timestamps, processLines_fst_map]
    simp only [effectiveLines]
    rw [if_neg h]
  · rw [generate_notes, generate_timestamps, processLines_snd_length,
      processLines_fst_length]

/-- Witness for C6 at the scenario request. -/
theorem timestamps_match_lines_witness :
    rawLines reqHW.lyrics ≠ [] ∧
    (generate_melody_preview reqHW true).timestamps.map TimestampItem.lineText =
      rawLines reqHW.lyrics ∧
    (generate_melody_preview reqHW true).midiJson.notes.length =
      4 * (generate_melody_preview reqHW true).timestamps.length :=
  ⟨by decide, (timestamps_match_lines reqHW true).1 (by decide),
    (timestamps_match_lines reqHW true).2⟩

/-- Claim C7: when the lyrics yield zero non-blank trimmed lines, the fixed
fallback lines `"la la la"`, `"dum dum"` are substituted, giving exactly
2 timestamp entries with those texts in that order, and exactly 8 notes. -/
theorem fallback_lines_shape (req : MelodyPreviewRequest) (mock : Bool)
    (h : rawLines req.lyrics = []) :
    (generate_melody_preview req mock).timestamps.map TimestampItem.lineText =
      ["la la la", "dum dum"] ∧
    (generate_melody_preview req mock).timestamps.length = 2 ∧
    (generate_melody_preview req mock).midiJson.notes.length = 8 := by
  have hl : effectiveLines req.lyrics = ["la la la", "dum dum"] := by
    simp only [effectiveLines]
    rw [if_pos h]
  refine ⟨?_, ?_, ?_⟩
  · rw [generate_timestamps, processLines_fst_map, hl]
  · rw [generate_timestamps, processLines_fst_length, hl]
    rfl
  · rw [generate_notes, processLines_snd_length, hl]
    rfl

/-- Witness for C7 at the empty-lyrics request. -/
theorem fallback_lines_shape_witness :
    rawLines reqEmpty.lyrics = [] ∧
    ((generate_melody_preview reqEmpty true).timestamps.map
        TimestampItem.lineText = ["la la la", "dum dum"] ∧
      (generate_melody_preview reqEmpty true).timestamps.length = 2 ∧
      (generate_melody_preview reqEmpty true).midiJson.notes.length = 8) :=
  ⟨by decide, fallback_lines_shape reqEmpty true (by decide)⟩

/-- Claim C8: the generator is total — it is a total function of its inputs by
construction — and both returned lists are always non-empty. -/
theorem generator_total_nonempty (req : MelodyPreviewRequest) (mock : Bool) :
    (generate_melody_preview req mock).timestamps ≠ [] ∧
    (generate_melody_preview req mock).midiJson.notes ≠ [] := by
  have h0 : 0 < (effectiveLines req.lyrics).length :=
    List.length_pos.mpr (effectiveLines_ne_nil req.lyrics)
  constructor
  · refine List.length_pos.mp ?_
    rw [generate_timestamps, processLines_fst_length]
    exact h0
  · refine List.length_pos.mp ?_
    rw [generate_notes, processLines_snd_length]
    omega

/-- Claim C9: the generator is deterministic — identical inputs (request and
mock-mode flag) give identical results in every field; the embedding has no
other inputs, mirroring the absence of randomness or time dependence in the
code. -/
theorem generator_deterministic (r₁ r₂ : MelodyPreviewRequest) (m₁ m₂ : Bool)
    (hr : r₁ = r₂) (hm : m₁ = m₂) :
    generate_melody_preview r₁ m₁ = generate_melody_preview r₂ m₂ := by
  rw [hr, hm]

/-- Witness for C9 at the scenario request. -/
theorem generator_deterministic_witness :
    reqHW = reqHW ∧ true = true ∧
    generate_melody_preview reqHW true = generate_melody_preview reqHW true :=
  ⟨rfl, rfl, generator_deterministic reqHW reqHW true true rfl rfl⟩

/-- Claim C10: every emitted note's midi value lies in `[60, 70]`, hence also
in the standard MIDI range `[0, 127]`, with no explicit clamping. -/
theorem midi_range (req : MelodyPreviewRequest) (mock : Bool) :
    ∀ e ∈ (generate_melody_preview req mock).midiJson.notes,
      (60 ≤ e.midi ∧ e.midi ≤ 70) ∧ (0 ≤ e.midi ∧ e.midi ≤ 127) := by
  intro e he
  rw [generate_notes] at he
  have h := processLines_midi_bounds _ _ _ _ e he
  exact ⟨h, by omega⟩

/-- Witness for C10 at a one-line request, instantiated with the first note. -/
theorem midi_range_witness :
    (⟨60, 0, 9/40⟩ : NoteEvent) ∈
      (generate_melody_preview reqH120 true).midiJson.notes ∧
    ((60 ≤ (60 : ℤ) ∧ (60 : ℤ) ≤ 70) ∧ (0 ≤ (60 : ℤ) ∧ (60 : ℤ) ≤ 127)) := by
  have hm : (⟨60, 0, 9/40⟩ : NoteEvent) ∈
      (generate_melody_preview reqH120 true).midiJson.notes := by
    rw [eval_reqH120_notes]
    simp
  exact ⟨hm, midi_range reqH120 true _ hm⟩

end MelodyPreview
